import Mathlib

/-!
# Verification of the GOST-assistant retrieval-and-verification pipeline

Shallow embedding of the repository's core modules:

* `app/guard/topic_maps.py` — topic rules (`TOPIC_RULES`);
* `app/guard/validators.py` — content validators;
* `app/guard/post_guard.py` — `_detect_topic`, `_check_sources`, `_validate`, `post_guard`;
* `app/llm.py` — `call_llm` (the Correction Orchestrator), with the external
  generation service modelled as an oracle and the number of generator
  invocations made explicit;
* `app/rag.py` — `MODEL_TO_DIMS`/`DIMS_TO_MODEL`, `_resolve_embed_model`,
  `_embed`, `search_chunks`, with the Postgres/pgvector store modelled as a
  list of stored rows, the `<=>` distance operator and the embedding service
  as parameters.

Python regular expressions are translated into a small executable
pattern language (`RE`, `matchFrom`, `reSearch`) covering exactly the
constructs the source patterns use (literals, literal alternation —
with `""` encoding an optional piece — and character-class `*`/`+`,
with `re.search` existential semantics and `re.I` handled by lowercasing
the subject).  Python `str.lower` is modelled for the alphabets that occur
(ASCII and Cyrillic).
-/

/-- Python `str.lower()` restricted to the alphabets occurring in the source:
ASCII `A`–`Z` and Cyrillic `А`–`Я`, `Ё`. -/
def lowerChar (c : Char) : Char :=
  if 'A' ≤ c ∧ c ≤ 'Z' then Char.ofNat (c.toNat + 32)
  else if 0x410 ≤ c.toNat ∧ c.toNat ≤ 0x42F then Char.ofNat (c.toNat + 0x20)
  else if c.toNat = 0x401 then Char.ofNat 0x451
  else c

/-- Python `str.lower()` on whole strings (see `lowerChar`). -/
def lowerStr (s : String) : String := ⟨s.data.map lowerChar⟩

/-- The characters matched by Python's `\s` (ASCII part: space, tab, newline,
carriage return, vertical tab, form feed). -/
def isSpacePy (c : Char) : Bool :=
  c == ' ' || c == '\t' || c == '\n' || c == '\r' || c.toNat == 0x0b || c.toNat == 0x0c

/-- The characters matched by Python's `\w` for the alphabets occurring in the
source: ASCII alphanumerics, underscore, and the Cyrillic block. -/
def isWordPy (c : Char) : Bool :=
  c.isAlphanum || c == '_' || (0x400 ≤ c.toNat && c.toNat ≤ 0x4FF)

/-- The character class `[\w\s-]` used by the topic query patterns. -/
def isWSD (c : Char) : Bool := isWordPy c || isSpacePy c || c == '-'

/-- The class matched by `.` in a Python regex without `DOTALL`: any character
except a newline. -/
def notNL (c : Char) : Bool := !(c == '\n')

/-- Python `str.strip()`: drop leading and trailing whitespace. -/
def pyStrip (s : String) : String :=
  ⟨((s.data.dropWhile isSpacePy).reverse.dropWhile isSpacePy).reverse⟩

/-- `startsWithStr s p` holds when `p` is a prefix of `s`. -/
def startsWithStr (s p : String) : Bool := p.data.isPrefixOf s.data

/-- `containsStr hay needle`: `needle` occurs somewhere in `hay`. -/
def containsStr (hay needle : String) : Bool :=
  (List.range (hay.data.length + 1)).any (fun i => needle.data.isPrefixOf (hay.data.drop i))

/-- Pattern pieces for the regexes occurring in the source.  An optional
piece `x?` is encoded as an alternation containing the empty literal. -/
inductive RE where
  | lit (cs : List Char)
  | alt (xs : List (List Char))
  | star (cls : Char → Bool)
  | plus (cls : Char → Bool)

/-- Literal piece from a (lowercase) string. -/
def rl (s : String) : RE := .lit s.data

/-- Alternation of (lowercase) literal strings; include `""` for an optional
piece. -/
def ra (xs : List String) : RE := .alt (xs.map (·.data))

/-- `\s*`. -/
def rsp : RE := .star isSpacePy

/-- `.*` (any characters except newline). -/
def rdot : RE := .star notNL

/-- Does the pattern list match some prefix of `s`?  Class `*`/`+` pieces
backtrack over every feasible length, exactly as a Python regex does, so this
computes the existential matching semantics of `re.search` anchored at the
start of `s`. -/
def matchFrom : List RE → List Char → Bool
  | [], _ => true
  | .lit l :: ps, s => l.isPrefixOf s && matchFrom ps (s.drop l.length)
  | .alt xs :: ps, s => xs.any (fun l => l.isPrefixOf s && matchFrom ps (s.drop l.length))
  | .star cls :: ps, s =>
      (List.range ((s.takeWhile cls).length + 1)).any (fun k => matchFrom ps (s.drop k))
  | .plus cls :: ps, s =>
      (List.range (s.takeWhile cls).length).any (fun k => matchFrom ps (s.drop (k + 1)))

/-- Python `re.search(p, s, re.I) is not None`: the pattern matches starting
at some position of the lowercased subject. -/
def reSearch (p : List RE) (s : String) : Bool :=
  let cs := s.data.map lowerChar
  (List.range (cs.length + 1)).any (fun i => matchFrom p (cs.drop i))

/-! ## `app/guard/topic_maps.py` -/

/-- `TopicRule` dataclass.  A compiled query pattern is modelled as its
`.search`-as-boolean function. -/
structure TopicRule where
  name : String
  query_patterns : List (String → Bool)
  allowed_gosts : List String
  forbidden_gosts : Option (List String) := none

/-- `r"(пылевидн|глинист)[\w\s-]+(щебн|грави)"`. -/
def patDustClay : List RE := [ra ["пылевидн", "глинист"], .plus isWSD, ra ["щебн", "грави"]]

/-- `r"(отбор|проб)[\w\s-]+(конвейер|ленточн)"`. -/
def patSampling : List RE := [ra ["отбор", "проб"], .plus isWSD, ra ["конвейер", "ленточн"]]

/-- `r"(модул[ья]?\s+крупност)"`. -/
def patModulus : List RE := [rl "модул", ra ["", "ь", "я"], .plus isSpacePy, rl "крупност"]

/-- `r"(тонкост|остаток).+№\s*0?08"`. -/
def patCement : List RE := [ra ["тонкост", "остаток"], .plus notNL, rl "№", rsp, ra ["", "0"], rl "08"]

/-- First branch of `r"(морозостойк|F\s*200).+(щебн|грави|заполнит)"`. -/
def patFrostA : List RE := [rl "морозостойк", .plus notNL, ra ["щебн", "грави", "заполнит"]]

/-- Second branch of `r"(морозостойк|F\s*200).+(щебн|грави|заполнит)"`. -/
def patFrostB : List RE := [rl "f", rsp, rl "200", .plus notNL, ra ["щебн", "грави", "заполнит"]]

/-- `TOPIC_RULES` from `topic_maps.py`, in declaration order. -/
def TOPIC_RULES : List TopicRule := [
  { name := "dust_clay_in_coarse_agg",
    query_patterns := [fun q => reSearch patDustClay q],
    allowed_gosts := ["ГОСТ 8269.0-97", "GOST-8269.0-1997"],
    forbidden_gosts := some ["ГОСТ 8735-88", "GOST-8735-1988", "ГОСТ 10060"] },
  { name := "sampling_on_conveyor_coarse",
    query_patterns := [fun q => reSearch patSampling q],
    allowed_gosts := ["ГОСТ 8269.0-97", "GOST-8269.0-1997"],
    forbidden_gosts := some ["ГОСТ 8735-88", "ГОСТ 10060"] },
  { name := "modulus_fineness_sand",
    query_patterns := [fun q => reSearch patModulus q],
    allowed_gosts := ["ГОСТ 8735-88", "GOST-8735-1988"],
    forbidden_gosts := some ["ГОСТ 8269.0-97", "ГОСТ 26633-2015"] },
  { name := "cement_fineness_sieve_008",
    query_patterns := [fun q => reSearch patCement q],
    allowed_gosts := ["ГОСТ 310.2-76", "GOST-310.2-1976"] },
  { name := "frost_agg_requirements_for_concrete",
    query_patterns := [fun q => reSearch patFrostA q || reSearch patFrostB q],
    allowed_gosts := ["ГОСТ 26633-2015", "ГОСТ 8269.0-97"],
    forbidden_gosts := some ["ГОСТ 10060"] }
]

/-! ## `app/guard/validators.py`

Each validator returns a dict; the fields consumed downstream
(`post_guard` reads `"ok"` and `"missing"`) are modelled; the source dicts
additionally carry an unconsumed diagnostic bool (`"formulas"`/`"formula"`). -/

/-- Validation outcome: the `"ok"` and `"missing"` entries of the dicts
returned by the validators. -/
structure ValOutcome where
  ok : Bool
  missing : List String := []
deriving Repr, DecidableEq

/-- The three `must` patterns of `validate_methods_dust_clay`:
`r"отмуч"`, `r"пипеточ"`, `r"мокро(е|го)\s+просеиван"`. -/
def vmMust : List (List RE) :=
  [[rl "отмуч"], [rl "пипеточ"], [ra ["мокрое", "мокрого"], .plus isSpacePy, rl "просеиван"]]

/-- `r"П\s*=\s*\(\s*m\s*-\s*m1?\s*\)\s*/\s*m\s*\*\s*100"` (and the `m2?`
variant), parametrised by the digit. -/
def vmFormula (d : String) : List RE :=
  [rl "п", rsp, rl "=", rsp, rl "(", rsp, rl "m", rsp, rl "-", rsp, rl "m",
   ra ["", d], rsp, rl ")", rsp, rl "/", rsp, rl "m", rsp, rl "*", rsp, rl "100"]

/-- `validate_methods_dust_clay`.  Note the source computes
`missing = ["Методы: ..."][:_all(answer, must) is False]`, so the one
description is present exactly when a `must` pattern is absent; a missing
formula contributes nothing to `missing`. -/
def validate_methods_dust_clay (answer : String) : ValOutcome :=
  let mustOk := vmMust.all (fun p => reSearch p answer)
  let formulasOk := reSearch (vmFormula "1") answer && reSearch (vmFormula "2") answer
  { ok := mustOk && formulasOk,
    missing := if mustOk then [] else ["Методы: отмучивание/пипеточный/мокрое просеивание"] }

/-- One sieve pattern `r"<a>[,\.]?\s*<b>"` of `validate_modulus_fineness`. -/
def sievePat (a b : String) : List RE := [rl a, ra ["", ",", "."], rsp, rl b]

/-- The five sieve patterns `2[,\.]?\s*5`, `1[,\.]?\s*25`, `0[,\.]?\s*63`,
`0[,\.]?\s*315`, `0[,\.]?\s*16`. -/
def sievePats : List (List RE) :=
  [sievePat "2" "5", sievePat "1" "25", sievePat "0" "63", sievePat "0" "315", sievePat "0" "16"]

/-- `r"M[кf]\s*=\s*\(?\s*R.*2\s*5.*\+\s*R.*1\s*25.*\+\s*R.*0\s*63.*\+\s*R.*0\s*315.*\+\s*R.*0\s*16.*\)\s*/\s*100"`. -/
def vModFormula : List RE :=
  [rl "m", ra ["к", "f"], rsp, rl "=", rsp, ra ["", "("], rsp,
   rl "r", rdot, rl "2", rsp, rl "5", rdot, rl "+", rsp,
   rl "r", rdot, rl "1", rsp, rl "25", rdot, rl "+", rsp,
   rl "r", rdot, rl "0", rsp, rl "63", rdot, rl "+", rsp,
   rl "r", rdot, rl "0", rsp, rl "315", rdot, rl "+", rsp,
   rl "r", rdot, rl "0", rsp, rl "16", rdot, rl ")", rsp, rl "/", rsp, rl "100"]

/-- `validate_modulus_fineness`: `missing` lists the sieves description only
when a sieve pattern is absent; a missing formula contributes nothing. -/
def validate_modulus_fineness (answer : String) : ValOutcome :=
  let sievesOk := sievePats.all (fun p => reSearch p answer)
  let formulaOk := reSearch vModFormula answer
  { ok := sievesOk && formulaOk,
    missing := if sievesOk then [] else ["Сита: 2.5; 1.25; 0.63; 0.315; 0.16"] }

/-- The `need` patterns of `validate_cement_sieve_008`, paired with their
source pattern strings (which the validator reports as `missing` entries). -/
def cementNeed : List (String × List RE) :=
  [("50\\s*г", [rl "50", rsp, rl "г"]),
   ("5\\s*[-–]\\s*7\\s*мин", [rl "5", rsp, ra ["-", "–"], rsp, rl "7", rsp, rl "мин"]),
   ("0[,\\.]?05\\s*г", [rl "0", ra ["", ",", "."], rl "05", rsp, rl "г"]),
   ("сито\\s*№\\s*0?08", [rl "сито", rsp, rl "№", rsp, ra ["", "0"], rl "08"])]

/-- `validate_cement_sieve_008`. -/
def validate_cement_sieve_008 (answer : String) : ValOutcome :=
  { ok := cementNeed.all (fun pr => reSearch pr.2 answer),
    missing := (cementNeed.filter (fun pr => !reSearch pr.2 answer)).map (·.1) }

/-- First branch of `r"(200\s*цикл[ао]|числ[оа]\s*циклов.*200)"`. -/
def frostCycA : List RE := [rl "200", rsp, rl "цикл", ra ["а", "о"]]

/-- Second branch of `r"(200\s*цикл[ао]|числ[оа]\s*циклов.*200)"`. -/
def frostCycB : List RE := [rl "числ", ra ["о", "а"], rsp, rl "циклов", rdot, rl "200"]

/-- Branch `потер[яи]\s*массы.*≤\s*5\s*%` of the mass-loss pattern. -/
def frostMassA : List RE :=
  [rl "потер", ra ["я", "и"], rsp, rl "массы", rdot, rl "≤", rsp, rl "5", rsp, rl "%"]

/-- Branch `потер[яи]\s*массы.*не\s*более\s*5\s*%` of the mass-loss pattern. -/
def frostMassB : List RE :=
  [rl "потер", ra ["я", "и"], rsp, rl "массы", rdot, rl "не", rsp, rl "более", rsp, rl "5", rsp, rl "%"]

/-- Branch `5\s*%` of the mass-loss pattern `r"(потер[яи]\s*массы.*(≤|не\s*более)\s*5\s*%|5\s*%)"`. -/
def frostMassC : List RE := [rl "5", rsp, rl "%"]

/-- `r"ГОСТ\s*10060"`. -/
def frostWrong : List RE := [rl "гост", rsp, rl "10060"]

/-- `validate_frost_F200_agg`. -/
def validate_frost_F200_agg (answer : String) : ValOutcome :=
  let ok := (reSearch frostCycA answer || reSearch frostCycB answer)
    && (reSearch frostMassA answer || reSearch frostMassB answer || reSearch frostMassC answer)
    && !(reSearch frostWrong answer)
  { ok := ok,
    missing := if ok then [] else
      ["Число циклов = 200; Потеря массы ≤ 5%; не ссылаться на ГОСТ 10060 (для заполнителя)"] }

/-! ## `app/guard/post_guard.py` -/

/-- `_detect_topic`: first rule (in declaration order) one of whose query
patterns matches. -/
def _detect_topic (query : String) : Option String :=
  (TOPIC_RULES.find? (fun r => r.query_patterns.any (fun p => p query))).map (·.name)

/-- Result dict of `_check_sources`: `{"ok": ..., "reason": ...}`. -/
structure SrcCheck where
  ok : Bool
  reason : Option String := none
deriving Repr, DecidableEq

/-- Python set comprehension `{str(s).lower() for s in l}`, modelled as a
deduplicated list in first-occurrence order (Python set iteration order is
unspecified; this model fixes it deterministically). -/
def toLowerSet (l : List String) : List String := (l.map lowerStr).eraseDups

/-- Set intersection `a & b` on the list-based set model, in the order of `a`. -/
def interL (a b : List String) : List String := a.filter (fun s => b.contains s)

/-- `_check_sources`: forbidden citations fail immediately (naming the
forbidden standards found); otherwise failure exactly when no allowed
standard is cited. -/
def _check_sources (topic : String) (used_standards : List String) : SrcCheck :=
  match TOPIC_RULES.find? (fun r => r.name == topic) with
  | none => { ok := true }
  | some rule =>
    let used := toLowerSet used_standards
    let allow := toLowerSet rule.allowed_gosts
    let forbid := toLowerSet (rule.forbidden_gosts.getD [])
    if interL used forbid ≠ [] then
      { ok := false,
        reason := some ("Запрещённые источники: " ++ ", ".intercalate (interL used forbid)) }
    else if interL used allow = [] then
      { ok := false,
        reason := some ("Нет допустимых источников (ожидались: "
          ++ ", ".intercalate rule.allowed_gosts ++ ")") }
    else { ok := true }

/-- `_validate`: dispatch to the topic's validator; unknown topics pass. -/
def _validate (topic : String) (answer_text : String) : ValOutcome :=
  if topic = "dust_clay_in_coarse_agg" then validate_methods_dust_clay answer_text
  else if topic = "modulus_fineness_sand" then validate_modulus_fineness answer_text
  else if topic = "cement_fineness_sieve_008" then validate_cement_sieve_008 answer_text
  else if topic = "frost_agg_requirements_for_concrete" then validate_frost_F200_agg answer_text
  else { ok := true }

/-- The `hints` dict of `post_guard`, as `hints.get(topic, "")`. -/
def hintFor (topic : String) : String :=
  if topic = "dust_clay_in_coarse_agg" then
    "\nЭталон: методы — отмучивание, пипеточный, мокрое просеивание; формулы П=(m−m1)/m·100 и П=(m−m2)/m·100."
  else if topic = "modulus_fineness_sand" then
    "\nЭталон: сита 2.5; 1.25; 0.63; 0.315; 0.16 и Mк=(R2.5+R1.25+R0.63+R0.315+R0.16)/100."
  else if topic = "cement_fineness_sieve_008" then
    "\nЭталон: 50 г; 5–7 мин; контроль вручную ≤ 0,05 г; сито №008."
  else if topic = "frost_agg_requirements_for_concrete" then
    "\nЭталон: для заполнителя F200 — 200 циклов; потеря массы ≤5%; ссылаться на 8269.0-97/26633-2015, не на 10060."
  else ""

/-- Result dict of `post_guard`: `{ ok: bool, answer: str, warnings: [..] }`. -/
structure GuardResult where
  ok : Bool
  answer : String
  warnings : List String
deriving Repr, DecidableEq

/-- `post_guard`: classify the query; on a sources failure prepend the warning
banner, then run the content validator **on the (possibly bannered) text**; on
a content failure record the completeness warning and append the topic hint. -/
def post_guard (user_query answer_text : String) (used_standards : List String) : GuardResult :=
  match _detect_topic user_query with
  | none => { ok := true, answer := answer_text, warnings := [] }
  | some topic =>
    let src := _check_sources topic used_standards
    let warnings1 : List String := if src.ok then [] else [src.reason.getD ""]
    let answer1 : String :=
      if src.ok then answer_text
      else "> Внимание: " ++ src.reason.getD "" ++ "\n\n" ++ answer_text
    let val := _validate topic answer1
    let warnings2 :=
      if val.ok then warnings1
      else warnings1 ++ ["Недостаточная полнота: " ++ "; ".intercalate val.missing]
    let answer2 := if val.ok then answer1 else answer1 ++ "\n\n---" ++ hintFor topic
    { ok := src.ok && val.ok, answer := answer2, warnings := warnings2 }

/-! ## `app/llm.py` — the Correction Orchestrator

The OpenAI chat-completion service is modelled as an oracle
`gen : List Msg → Except String GenOut` (an `.error` models a raised
exception, which `call_llm` does not catch).  The returned pair's second
component counts the generator invocations actually made, which the source
performs sequentially. -/

/-- A chat message `{role, content}`. -/
structure Msg where
  role : String
  content : String
deriving Repr, DecidableEq

/-- A chat-completion response: `choices[0].message.content` and `usage`
(the latter abstracted to a number). -/
structure GenOut where
  content : String
  usage : Nat
deriving Repr, DecidableEq

/-- A value stored in a Python dict returned by the guard. -/
inductive PyVal where
  | b (x : Bool)
  | s (x : String)
  | ls (x : List String)
deriving Repr, DecidableEq

/-- The dict `{ "ok": ..., "answer": ..., "warnings": ... }` that `post_guard`
returns, as the key-value list Python iterates over (insertion order). -/
def GuardResult.toDict (g : GuardResult) : List (String × PyVal) :=
  [("ok", .b g.ok), ("answer", .s g.answer), ("warnings", .ls g.warnings)]

/-- The system message of `call_llm`. -/
def systemMsg : Msg :=
  ⟨"system", "Ты ассистент по ГОСТам и строительным нормативам. Будь точен в цифрах."⟩

/-- The initial message sequence of `call_llm`. -/
def initMessages (prompt : String) : List Msg := [systemMsg, ⟨"user", prompt⟩]

/-- The correction prompt of `call_llm`.  `'; '.join(warnings)` in the source
iterates over `warnings`, which holds `post_guard`'s returned **dict**, so the
joined items are the dict's keys. -/
def correctionText (ws : List String) : String :=
  "В твоем ответе найдены фактические неточности:\n" ++ "; ".intercalate ws
    ++ "\n\nПожалуйста, перепиши ответ, исправив эти ошибки и ссылаясь на верные пункты ГОСТ."

/-- The message history for the retry call of `call_llm`. -/
def retryMessages (prompt answer0 : String) (ws : List String) : List Msg :=
  initMessages prompt ++ [⟨"assistant", answer0⟩, ⟨"user", correctionText ws⟩]

/-- `call_llm` from `app/llm.py`.  The source stores `post_guard`'s return
value in a variable named `warnings` and branches on `if warnings:` — Python
truthiness of the returned dict — then joins the dict (its keys) into the
correction prompt.  An `.error` from the oracle models an uncaught exception
propagating out of `call_llm`.  The second component counts generator calls. -/
def call_llmE (gen : List Msg → Except String GenOut) (prompt : String)
    (used_sources : Option (List String)) : Except String (String × Nat) × Nat :=
  let used := used_sources.getD []
  match gen (initMessages prompt) with
  | .error e => (.error e, 1)
  | .ok r0 =>
    let warnings := (post_guard prompt r0.content used).toDict
    if warnings.isEmpty then (.ok (r0.content, r0.usage), 1)
    else
      match gen (retryMessages prompt r0.content (warnings.map (·.1))) with
      | .error e => (.error e, 2)
      | .ok r1 => (.ok (r1.content, r1.usage), 2)

/-- The `try/except` around `call_llm` in `run_chat_sync`
(`app/chat_service.py` lines 91–95): an exception becomes the answer
`f"Ошибка LLM: {e}"`. -/
def chatAnswer (r : Except String (String × Nat)) : String :=
  match r with
  | .error e => "Ошибка LLM: " ++ e
  | .ok (a, _) => a

/-! ## `app/rag.py`

The Postgres/pgvector store is modelled as a list of joined rows
(`document_chunks ⋈ documents`); the pgvector cosine-distance operator `<=>`
and the OpenAI embedding service are parameters. -/

/-- `MODEL_TO_DIMS` from `rag.py`. -/
def MODEL_TO_DIMS (m : String) : Option Nat :=
  if m = "text-embedding-3-small" then some 1536
  else if m = "text-embedding-3-large" then some 3072
  else none

/-- `DIMS_TO_MODEL = {v: k for k, v in MODEL_TO_DIMS.items()}`. -/
def DIMS_TO_MODEL (d : Nat) : Option String :=
  if d = 1536 then some "text-embedding-3-small"
  else if d = 3072 then some "text-embedding-3-large"
  else none

/-- `_resolve_embed_model`.  `cache` models the module-level
`_EMBED_MODEL_RESOLVED` (tested for truthiness), `envCombined` the value of
`os.getenv("OPENAI_EMBEDDING_MODEL") or os.getenv("EMBED_MODEL") or ""`, and
`dbDims` the result of `_detect_db_vector_dims()` (an external DB probe).
The function always returns a model name; it raises nothing. -/
def _resolve_embed_model (cache : Option String) (envCombined : String)
    (dbDims : Option Nat) : String :=
  if (cache.getD "") ≠ "" then cache.getD ""
  else
    let env_model : Option String :=
      if pyStrip envCombined = "" then none else some (pyStrip envCombined)
    let db_model : Option String :=
      match dbDims with
      | some d => if d = 0 then none else DIMS_TO_MODEL d
      | none => none
    match db_model, env_model with
    | some dm, some e => if MODEL_TO_DIMS e ≠ dbDims then dm else e
    | none, some e => e
    | some dm, none => dm
    | none, none => "text-embedding-3-small"

/-- Python `model or resolved`: an absent or empty model argument falls back
to the resolved model. -/
def pyOrStr (o : Option String) (d : String) : String :=
  match o with
  | some s => if s = "" then d else s
  | none => d

/-- `_embed` from `rag.py` (lines 138–141): call the embedding service with
the chosen model and return `resp.data[0].embedding` **unchanged** — the
source performs no length validation whatsoever. -/
def _embed (svc : String → String → List ℚ) (resolved : String)
    (text : String) (model : Option String) : List ℚ :=
  svc (pyOrStr model resolved) text

/-- A joined row of `document_chunks` and `documents` as the dense SQL query
sees it. -/
structure StoredRow where
  id : Nat
  document_id : Nat
  chunk_index : Nat
  text : String
  «section» : Option String := none
  paragraph : Option String := none
  standard_number : Option String := none
  year : Option Int := none
  document_name : Option String := none
  embedding : Option (List ℚ) := none
deriving Repr, DecidableEq

/-- The `Chunk` dataclass of `rag.py`. -/
structure Chunk where
  id : Nat
  document_id : Nat
  chunk_index : Nat
  text : String
  «section» : Option String := none
  paragraph : Option String := none
  standard_number : Option String := none
  year : Option Int := none
  document_name : Option String := none
  dense_score : Option ℚ := none
deriving Repr, DecidableEq

/-- SQL `LIKE` pattern matching (`%` any run, `_` any character). -/
def likeMatch : List Char → List Char → Bool
  | [], [] => true
  | [], _ :: _ => false
  | '%' :: ps, s =>
      likeMatch ps s || (match s with | [] => false | _ :: s' => likeMatch ('%' :: ps) s')
  | '_' :: ps, s => (match s with | [] => false | _ :: s' => likeMatch ps s')
  | c :: ps, s => (match s with | [] => false | d :: s' => c == d && likeMatch ps s')
termination_by p s => (s.length, p.length)

/-- SQL `ILIKE`: case-insensitive `LIKE`. -/
def ilike (pat s : String) : Bool := likeMatch (pat.data.map lowerChar) (s.data.map lowerChar)

/-- The `WHERE` clause of the dense query: `embedding IS NOT NULL AND
vector_dims(embedding) = :q_dims AND (:std_pattern IS NULL OR
standard_number ILIKE :std_pattern)` (a SQL `NULL` standard number fails the
`ILIKE`). -/
def eligible (q_dims : Nat) (std_pattern : Option String) (r : StoredRow) : Bool :=
  match r.embedding with
  | none => false
  | some e =>
    e.length == q_dims &&
      (match std_pattern, r.standard_number with
       | none, _ => true
       | some _, none => false
       | some p, some sn => ilike p sn)

/-- Build the `Chunk` for a selected row: the SQL selects
`(1 - (c.embedding <=> :q_emb)) AS dense_score`. -/
def rowToChunk (dist : List ℚ → List ℚ → ℚ) (q_emb : List ℚ) (r : StoredRow) : Chunk :=
  { id := r.id, document_id := r.document_id, chunk_index := r.chunk_index,
    text := r.text, «section» := r.«section», paragraph := r.paragraph,
    standard_number := r.standard_number, year := r.year,
    document_name := r.document_name,
    dense_score := some (1 - dist (r.embedding.getD []) q_emb) }

/-- `search_chunks` from `rag.py`: strip the query (empty → no search, no
embedding call), embed it, run the **dense** SQL query — filter by
`vector_dims = len(q_emb)` and the optional standard-number pattern, order by
ascending `<=>` distance, `LIMIT max(top_k*3, top_k)` — then take the first
`top_k` rows as `Chunk`s.  `dist` models pgvector's `<=>` operator and `svc`
the embedding service applied to the resolved model. -/
def search_chunks (db : List StoredRow) (dist : List ℚ → List ℚ → ℚ)
    (svc : String → List ℚ) (query : String) (top_k : Nat)
    (std_pattern : Option String) : List Chunk :=
  let q := pyStrip query
  if q = "" then []
  else
    let q_emb := svc q
    let q_dims := q_emb.length
    let sorted := (db.filter (eligible q_dims std_pattern)).insertionSort
      (fun r s => dist (r.embedding.getD []) q_emb ≤ dist (s.embedding.getD []) q_emb)
    let rows := sorted.take (max (top_k * 3) top_k)
    (rows.take top_k).map (rowToChunk dist q_emb)

/-! ## Specification-side definitions (for comparison only)

These two definitions are **not** translated from the source: they render the
specification's words, to be compared with the source-derived definitions
above. -/

/-- Follows the spec's words (§4.2): the checked embedder — if the returned
vector's length differs from the resolved dimensionality this is surfaced as
an explicit `DimensionMismatch` condition, never silently truncated or
padded. -/
def specEmbedChecked (svc : String → String → List ℚ) (model : String)
    (dims : Nat) (text : String) : Except String (List ℚ) :=
  let v := svc model text
  if v.length = dims then .ok v else .error "DimensionMismatch"

/-- The score a channel assigns to a passage id, if any. -/
def chanScore (chan : List (Nat × ℚ)) (i : Nat) : Option ℚ :=
  (chan.find? (fun p => p.1 == i)).map (·.2)

/-- Min–max normalization of `x` over a channel's defined scores (degenerate
channels normalize to 1; the spec leaves this case open). -/
def minMaxNorm (vals : List ℚ) (x : ℚ) : ℚ :=
  let mn := vals.foldl min (vals.headD 0)
  let mx := vals.foldl max (vals.headD 0)
  if mx = mn then 1 else (x - mn) / (mx - mn)

/-- Normalized channel score of a passage: an undefined score contributes 0
after normalization (spec §4.3 step 5). -/
def specNormScore (chan : List (Nat × ℚ)) (i : Nat) : ℚ :=
  match chanScore chan i with
  | none => 0
  | some x => minMaxNorm (chan.map (·.2)) x

/-- Spec §4.3 step 6: `fusion = 0.7 × normalizedDense + 0.3 × normalizedLexical`. -/
def specFusionScore (dense lex : List (Nat × ℚ)) (i : Nat) : ℚ :=
  (7/10) * specNormScore dense i + (3/10) * specNormScore lex i

/-- Follows the spec's words (§4.3 steps 4–7): merge dense and lexical
candidates by passage identity, min–max normalize each channel, fuse
0.7/0.3, sort descending by fusion score (stable on dense-then-lexical
order), return the first `topK` with their fusion scores. -/
def specHybridSearch (dense lex : List (Nat × ℚ)) (topK : Nat) : List (Nat × ℚ) :=
  let ids := (dense.map (·.1) ++ lex.map (·.1)).eraseDups
  let ranked := ids.insertionSort
    (fun a b => specFusionScore dense lex b ≤ specFusionScore dense lex a)
  (ranked.take topK).map (fun i => (i, specFusionScore dense lex i))

/-! ## Fixtures and statement abbreviations for individual claims -/

/-- The banner-annotated text `post_guard` hands to the content validator:
the original answer when the sources check passes, otherwise the answer with
the warning banner prepended. -/
def guardAnswer1 (t a : String) (used : List String) : String :=
  if (_check_sources t used).ok then a
  else "> Внимание: " ++ (_check_sources t used).reason.getD "" ++ "\n\n" ++ a

/-- Store with three one-dimensional embeddings (dense distances 0, 1, 50
under `cexDist2`). -/
def cexDb2 : List StoredRow :=
  [{ id := 11, document_id := 1, chunk_index := 0, text := "p1", embedding := some [0] },
   { id := 12, document_id := 1, chunk_index := 1, text := "p2", embedding := some [1] },
   { id := 13, document_id := 1, chunk_index := 2, text := "p3", embedding := some [50] }]

/-- A distance oracle reading the stored vector's first component. -/
def cexDist2 : List ℚ → List ℚ → ℚ := fun e _ => e.headD 0

/-- A lexical candidate list strongly preferring passage 12. -/
def cexLex2 : List (Nat × ℚ) := [(12, 100), (11, 0), (13, 0)]

/-- Single-row store for the C2 witness. -/
def cexDb2w : List StoredRow :=
  [{ id := 7, document_id := 2, chunk_index := 0, text := "w", embedding := some [0] }]

/-- Single-row store for the C6 counterexample. -/
def cexDb6c : List StoredRow :=
  [{ id := 5, document_id := 1, chunk_index := 0, text := "c", embedding := some [1] }]

/-- Single-row store for the C6 witness. -/
def cexDb6w : List StoredRow :=
  [{ id := 4, document_id := 1, chunk_index := 0, text := "v", embedding := some [0] }]

/-- Store with one three-dimensional embedding for the C4 counterexample. -/
def cexDb4 : List StoredRow :=
  [{ id := 9, document_id := 3, chunk_index := 0, text := "d", embedding := some [0, 0, 0] }]

/-! ## Helper lemmas -/

/-- A prefix of `a` is a prefix of `a ++ b`. -/
theorem startsWithStr_append (p a b : String) (h : startsWithStr a p = true) :
    startsWithStr (a ++ b) p = true := by
  unfold startsWithStr at *
  rw [String.data_append, List.isPrefixOf_iff_prefix] at *
  exact h.trans (List.prefix_append a.data b.data)

/-- `DIMS_TO_MODEL` and `MODEL_TO_DIMS` are mutually inverse where defined. -/
theorem dims_to_model_roundtrip (D : Nat) (m : String) (h : DIMS_TO_MODEL D = some m) :
    MODEL_TO_DIMS m = some D := by
  unfold DIMS_TO_MODEL at h
  by_cases h1 : D = 1536
  · subst h1; simp at h; subst h; decide
  · by_cases h2 : D = 3072
    · subst h2; simp at h; subst h; decide
    · simp [h1, h2] at h

/-- A topic produced by `_detect_topic` is the name of one of the five rules. -/
theorem detect_topic_names (q t : String) (h : _detect_topic q = some t) :
    t = "dust_clay_in_coarse_agg" ∨ t = "sampling_on_conveyor_coarse"
    ∨ t = "modulus_fineness_sand" ∨ t = "cement_fineness_sieve_008"
    ∨ t = "frost_agg_requirements_for_concrete" := by
  unfold _detect_topic at h
  cases hf : TOPIC_RULES.find? (fun r => r.query_patterns.any (fun p => p q)) with
  | none => rw [hf] at h; simp at h
  | some r =>
    rw [hf] at h
    have hm := List.mem_of_find?_eq_some hf
    unfold TOPIC_RULES at hm
    simp only [List.mem_cons, List.not_mem_nil, or_false] at hm
    rcases hm with h1 | h1 | h1 | h1 | h1 <;> subst h1 <;>
      injection h with h2 <;> subst h2 <;> simp

/-! ## Claim theorems -/

/-- C1 — the code bug evaluated.  The query `"привет"` matches no topic rule,
so the guard verdict is fully accepted (`ok = true`, empty warnings); the
claim says the orchestrator then makes no second generator call and returns
`answer₀` unmodified.  The source instead truth-tests `post_guard`'s returned
*dict* (always non-empty, keys `ok; answer; warnings`), so it always performs
the correction call and returns the second answer. -/
theorem call_llm_retries_despite_accepted_verdict :
    post_guard "привет" "Ответ А" [] = { ok := true, answer := "Ответ А", warnings := [] }
    ∧ (GuardResult.toDict (post_guard "привет" "Ответ А" [])).map (·.1)
        = ["ok", "answer", "warnings"]
    ∧ call_llmE (fun ms => if ms.length == 2 then .ok ⟨"Ответ А", 10⟩ else .ok ⟨"Ответ Б", 20⟩)
        "привет" none = (.ok ("Ответ Б", 20), 2)
    ∧ ("Ответ Б" : String) ≠ "Ответ А" := by
  refine ⟨by decide, by decide, rfl, by decide⟩

/-- C3 counterexample: with a persisted dimensionality 768 (no configured
model has output length 768) and no environment override, resolution returns
the default small model, whose output dimensionality is 1536 ≠ 768 — and the
function (of return type `String`) raises no `ConfigurationError`. -/
theorem resolve_no_error_on_unmatched_dims :
    _resolve_embed_model none "" (some 768) = "text-embedding-3-small"
    ∧ DIMS_TO_MODEL 768 = none
    ∧ MODEL_TO_DIMS "text-embedding-3-small" = some 1536
    ∧ (1536 : Nat) ≠ 768 := by
  refine ⟨rfl, rfl, rfl, by decide⟩

/-- C3 amended: when the persisted dimensionality D is matched by some
configured model, resolution returns a model of output dimensionality D;
when no configured model matches, resolution silently falls back to the
environment model (or the default small model) instead of raising. -/
theorem resolve_matches_db_dims (env : String) (D : Nat) :
    (∀ m, DIMS_TO_MODEL D = some m → D ≠ 0 →
        MODEL_TO_DIMS (_resolve_embed_model none env (some D)) = some D)
    ∧ (DIMS_TO_MODEL D = none →
        _resolve_embed_model none env (some D)
          = if pyStrip env = "" then "text-embedding-3-small" else pyStrip env) := by
  constructor
  · intro m hm hD
    unfold _resolve_embed_model
    simp only [Option.getD_none, ne_eq, not_true_eq_false, if_false, ite_not]
    rw [if_neg hD, hm]
    by_cases he : pyStrip env = ""
    · simp only [he, if_pos rfl]
      exact dims_to_model_roundtrip D m hm
    · simp only [if_neg he]
      by_cases hmm : MODEL_TO_DIMS (pyStrip env) = some D
      · rw [if_pos hmm]
        exact hmm
      · rw [if_neg hmm]
        exact dims_to_model_roundtrip D m hm
  · intro hD
    unfold _resolve_embed_model
    simp only [Option.getD_none, ne_eq, not_true_eq_false, if_false, ite_not]
    by_cases h0 : D = 0
    · rw [if_pos h0]
      by_cases he : pyStrip env = "" <;> simp [he]
    · rw [if_neg h0, hD]
      by_cases he : pyStrip env = "" <;> simp [he]

/-- C3 witness: dimensionality 3072 is matched by the large model, and
resolution indeed returns a model of output dimensionality 3072. -/
theorem resolve_matches_db_dims_witness :
    DIMS_TO_MODEL 3072 = some "text-embedding-3-large"
    ∧ MODEL_TO_DIMS (_resolve_embed_model none "" (some 3072)) = some 3072 :=
  ⟨rfl, (resolve_matches_db_dims "" 3072).1 "text-embedding-3-large" rfl (by decide)⟩

/-- C4 counterexample: an embedding service returning a 3-component vector
while the resolved model's dimensionality is 1536.  `_embed` returns the
mismatched vector unchanged — the spec's checked embedder would raise
`DimensionMismatch` — and `search_chunks` proceeds to search with it
(filtering stored vectors by the *returned* vector's length). -/
theorem embed_no_dimension_check :
    _embed (fun _ _ => [1, 2, 3]) "text-embedding-3-small" "запрос" none = [1, 2, 3]
    ∧ MODEL_TO_DIMS "text-embedding-3-small" = some 1536
    ∧ ([1, 2, 3] : List ℚ).length ≠ 1536
    ∧ specEmbedChecked (fun _ _ => [1, 2, 3]) "text-embedding-3-small" 1536 "запрос"
        = .error "DimensionMismatch"
    ∧ (search_chunks cexDb4 (fun _ _ => 0) (fun _ => [1, 2, 3]) "запрос" 1 none).length = 1 := by
  refine ⟨rfl, rfl, by decide, rfl, by decide⟩

/-- C4 amended: `_embed` performs no length validation — it agrees with the
spec's checked embedder exactly when the service honours the resolved
dimensionality, and on a mismatch it returns the raw vector where the spec
demands a `DimensionMismatch` error. -/
theorem embed_agrees_iff_length_ok (svc : String → String → List ℚ)
    (resolved : String) (dims : Nat) (t : String) :
    ((svc resolved t).length = dims →
        specEmbedChecked svc resolved dims t = .ok (_embed svc resolved t none))
    ∧ ((svc resolved t).length ≠ dims →
        specEmbedChecked svc resolved dims t = .error "DimensionMismatch"
        ∧ _embed svc resolved t none = svc resolved t) := by
  constructor
  · intro h
    unfold specEmbedChecked _embed pyOrStr
    simp [h]
  · intro h
    refine ⟨?_, rfl⟩
    unfold specEmbedChecked
    simp [h]

/-- C4 witness. -/
theorem embed_agrees_iff_length_ok_witness :
    ((fun (_ _ : String) => ([0] : List ℚ)) "m" "t").length = 1
    ∧ specEmbedChecked (fun _ _ => [0]) "m" 1 "t"
        = .ok (_embed (fun _ _ => [0]) "m" "t" none) :=
  ⟨rfl, (embed_agrees_iff_length_ok (fun _ _ => [0]) "m" 1 "t").1 rfl⟩

/-- C5 counterexample: the first generation succeeds with `"Ответ0"`, the
correction call raises.  The exception propagates out of `call_llm` and the
caller answers `"Ошибка LLM: timeout"` — `answer₀` is lost entirely, not
returned with its guard warnings as the claim states. -/
theorem second_call_failure_loses_answer0 :
    call_llmE (fun ms => if ms.length == 2 then .ok ⟨"Ответ0", 5⟩ else .error "timeout")
      "привет" none = (.error "timeout", 2)
    ∧ chatAnswer (call_llmE
        (fun ms => if ms.length == 2 then .ok ⟨"Ответ0", 5⟩ else .error "timeout")
        "привет" none).1 = "Ошибка LLM: timeout"
    ∧ containsStr "Ошибка LLM: timeout" "Ответ0" = false := by
  refine ⟨rfl, rfl, by decide⟩

/-- C5 amended: a failure of the first generation call propagates with no
correction attempted, and the caller surfaces the generation-failure answer;
a failure of the second (correction) call likewise propagates, and the caller
surfaces the same generation-failure answer — `answer₀` is not recovered. -/
theorem call_llm_failure_semantics (gen : List Msg → Except String GenOut)
    (prompt : String) (used : Option (List String)) (e : String) :
    (gen (initMessages prompt) = .error e →
        call_llmE gen prompt used = (.error e, 1)
        ∧ chatAnswer (call_llmE gen prompt used).1 = "Ошибка LLM: " ++ e)
    ∧ (∀ r0, gen (initMessages prompt) = .ok r0 →
        gen (retryMessages prompt r0.content
            ((post_guard prompt r0.content (used.getD [])).toDict.map (·.1))) = .error e →
        call_llmE gen prompt used = (.error e, 2)
        ∧ chatAnswer (call_llmE gen prompt used).1 = "Ошибка LLM: " ++ e) := by
  constructor
  · intro h
    unfold call_llmE
    rw [h]
    exact ⟨rfl, rfl⟩
  · intro r0 h0 h1
    simp only [call_llmE, h0]
    cases hD : (post_guard prompt r0.content (used.getD [])).toDict with
    | nil => exact absurd hD (by simp [GuardResult.toDict])
    | cons x l =>
      rw [hD] at h1
      simp only [List.isEmpty_cons, Bool.false_eq_true, if_false]
      rw [h1]
      exact ⟨rfl, rfl⟩

/-- C5 witness. -/
theorem call_llm_failure_semantics_witness :
    call_llmE (fun _ => .error "boom") "q" none = (.error "boom", 1)
    ∧ chatAnswer (call_llmE (fun _ => .error "boom") "q" none).1 = "Ошибка LLM: " ++ "boom" :=
  (call_llm_failure_semantics (fun _ => .error "boom") "q" none "boom").1 rfl

/-- C10 — confirmed: `post_guard` validates the **bannered** text.  The query
classifies to the frost topic; the raw answer satisfies every content
requirement (`validate_frost_F200_agg` accepts it); citing ГОСТ 10060 makes
the sources check fail with a reason naming `гост 10060`; the banner carrying
that reason is prepended *before* content validation, whose `ГОСТ\s*10060`
anti-pattern then matches the banner — so the content verdict is false and
both warnings are emitted. -/
theorem post_guard_validates_annotated_text :
    (validate_frost_F200_agg
        "Для заполнителя установлено 200 циклов, потеря массы не более 5 %.").ok = true
    ∧ (_check_sources "frost_agg_requirements_for_concrete" ["ГОСТ 10060"]).reason
        = some "Запрещённые источники: гост 10060"
    ∧ (validate_frost_F200_agg
        ("> Внимание: Запрещённые источники: гост 10060\n\n"
          ++ "Для заполнителя установлено 200 циклов, потеря массы не более 5 %.")).ok = false
    ∧ (post_guard "морозостойкость щебня для бетона"
        "Для заполнителя установлено 200 циклов, потеря массы не более 5 %."
        ["ГОСТ 10060"]).ok = false
    ∧ (post_guard "морозостойкость щебня для бетона"
        "Для заполнителя установлено 200 циклов, потеря массы не более 5 %."
        ["ГОСТ 10060"]).warnings.length = 2 := by
  refine ⟨by decide, rfl, by decide, by decide, by decide⟩

/-- The list-set intersection is empty exactly when no element is shared. -/
theorem interL_eq_nil_iff (a b : List String) :
    interL a b = [] ↔ ¬∃ s, s ∈ a ∧ s ∈ b := by
  unfold interL
  rw [List.filter_eq_nil_iff]
  constructor
  · rintro h ⟨s, hsa, hsb⟩
    exact h s hsa (List.elem_iff.mpr hsb)
  · intro h s hsa hsb
    exact h ⟨s, hsa, List.elem_iff.mp hsb⟩

/-- C7 — confirmed.  For any rule looked up by topic name and any cited set,
compared lowercased: any shared element with the forbidden set fails the check
immediately, with a reason naming exactly the forbidden standards found (in
cited order); otherwise the check fails precisely when the cited set shares
nothing with the allowed set. -/
theorem check_sources_forbidden_overrides (t : String) (rule : TopicRule)
    (used : List String)
    (hfind : TOPIC_RULES.find? (fun r => r.name == t) = some rule) :
    ((∃ s, s ∈ toLowerSet used ∧ s ∈ toLowerSet (rule.forbidden_gosts.getD [])) →
        (_check_sources t used).ok = false
        ∧ (_check_sources t used).reason
            = some ("Запрещённые источники: "
                ++ ", ".intercalate
                    (interL (toLowerSet used) (toLowerSet (rule.forbidden_gosts.getD [])))))
    ∧ ((¬∃ s, s ∈ toLowerSet used ∧ s ∈ toLowerSet (rule.forbidden_gosts.getD [])) →
        ((_check_sources t used).ok = false
          ↔ ¬∃ s, s ∈ toLowerSet used ∧ s ∈ toLowerSet rule.allowed_gosts)) := by
  simp only [_check_sources, hfind, ne_eq, ite_not]
  constructor
  · intro hex
    have hne : ¬interL (toLowerSet used) (toLowerSet (rule.forbidden_gosts.getD [])) = [] := by
      rw [interL_eq_nil_iff]
      exact not_not_intro hex
    rw [if_neg hne]
    exact ⟨rfl, rfl⟩
  · intro hno
    have hnil : interL (toLowerSet used) (toLowerSet (rule.forbidden_gosts.getD [])) = [] :=
      (interL_eq_nil_iff _ _).mpr hno
    rw [if_pos hnil]
    by_cases ha : interL (toLowerSet used) (toLowerSet rule.allowed_gosts) = []
    · rw [if_pos ha]
      exact iff_of_true rfl ((interL_eq_nil_iff _ _).mp ha)
    · rw [if_neg ha]
      refine iff_of_false (by simp) (not_not_intro ?_)
      by_contra hcon
      exact ha ((interL_eq_nil_iff _ _).mpr hcon)

/-- C7 witness: the dust/clay topic forbids ГОСТ 8735-88; citing it together
with the allowed ГОСТ 8269.0-97 still fails, with the reason naming the
forbidden standard. -/
theorem check_sources_forbidden_overrides_witness :
    (_check_sources "dust_clay_in_coarse_agg" ["ГОСТ 8269.0-97", "ГОСТ 8735-88"]).ok = false
    ∧ (_check_sources "dust_clay_in_coarse_agg" ["ГОСТ 8269.0-97", "ГОСТ 8735-88"]).reason
        = some "Запрещённые источники: гост 8735-88" := by
  have h := (check_sources_forbidden_overrides "dust_clay_in_coarse_agg"
    { name := "dust_clay_in_coarse_agg",
      query_patterns := [fun q => reSearch patDustClay q],
      allowed_gosts := ["ГОСТ 8269.0-97", "GOST-8269.0-1997"],
      forbidden_gosts := some ["ГОСТ 8735-88", "GOST-8735-1988", "ГОСТ 10060"] }
    ["ГОСТ 8269.0-97", "ГОСТ 8735-88"] rfl).1
    ⟨"гост 8735-88", by decide, by decide⟩
  refine ⟨h.1, ?_⟩
  rw [h.2]
  rfl

/-- When the sources check fails for the detected topic, `post_guard` reports
`ok = false` and its annotated answer is the banner-prefixed text, possibly
followed by the topic hint. -/
theorem post_guard_answer_shape (q a : String) (us : List String) (t : String)
    (h : _detect_topic q = some t) (hok : (_check_sources t us).ok = false) :
    (post_guard q a us).ok = false
    ∧ ((post_guard q a us).answer
          = "> Внимание: " ++ (_check_sources t us).reason.getD "" ++ "\n\n" ++ a
        ∨ (post_guard q a us).answer
          = "> Внимание: " ++ (_check_sources t us).reason.getD "" ++ "\n\n" ++ a
            ++ "\n\n---" ++ hintFor t) := by
  simp only [post_guard, h]
  simp only [hok, Bool.false_eq_true, if_false, Bool.false_and]
  by_cases hv : (_validate t
      ("> Внимание: " ++ (_check_sources t us).reason.getD "" ++ "\n\n" ++ a)).ok = true
  · simp only [hv, if_true]
    simp
  · rw [Bool.not_eq_true] at hv
    simp only [hv, Bool.false_eq_true, if_false]
    simp

/-- C9 — confirmed.  `call_llm` with `used_sources` omitted/None normalizes to
the empty cited set (so `post_guard` receives `[]`, exactly as with
`some []`); and for every query that classifies to a topic, the empty cited
set shares nothing with the allowed standards, so the sources check fails and
the guard's annotated answer carries the "no admissible sources" banner
prepended, whatever the answer text. -/
theorem empty_sources_always_flagged :
    (∀ gen prompt, call_llmE gen prompt none = call_llmE gen prompt (some []))
    ∧ ∀ q t a, _detect_topic q = some t →
        (_check_sources t []).ok = false
        ∧ (post_guard q a []).ok = false
        ∧ startsWithStr (post_guard q a []).answer
            "> Внимание: Нет допустимых источников (ожидались: " = true := by
  constructor
  · intro gen prompt
    rfl
  · intro q t a h
    have hnames := detect_topic_names q t h
    have hck : (_check_sources t []).ok = false
        ∧ ∃ r, (_check_sources t []).reason
            = some ("Нет допустимых источников (ожидались: " ++ r) := by
      rcases hnames with h1 | h1 | h1 | h1 | h1 <;> subst h1
      · exact ⟨by decide, "ГОСТ 8269.0-97, GOST-8269.0-1997)", by decide⟩
      · exact ⟨by decide, "ГОСТ 8269.0-97, GOST-8269.0-1997)", by decide⟩
      · exact ⟨by decide, "ГОСТ 8735-88, GOST-8735-1988)", by decide⟩
      · exact ⟨by decide, "ГОСТ 310.2-76, GOST-310.2-1976)", by decide⟩
      · exact ⟨by decide, "ГОСТ 26633-2015, ГОСТ 8269.0-97)", by decide⟩
    obtain ⟨hok, r, hres⟩ := hck
    refine ⟨hok, (post_guard_answer_shape q a [] t h hok).1, ?_⟩
    rcases (post_guard_answer_shape q a [] t h hok).2 with hA | hA <;>
      rw [hA, hres] <;> simp only [Option.getD_some]
    · apply startsWithStr_append
      apply startsWithStr_append
      rw [← String.append_assoc]
      apply startsWithStr_append
      decide
    · apply startsWithStr_append
      apply startsWithStr_append
      apply startsWithStr_append
      apply startsWithStr_append
      rw [← String.append_assoc]
      apply startsWithStr_append
      decide

/-- C9 witness: the sand fineness-modulus query classifies, and with the empty
cited set the guard flags it and prepends the banner. -/
theorem empty_sources_always_flagged_witness :
    _detect_topic "модуль крупности песка" = some "modulus_fineness_sand"
    ∧ (_check_sources "modulus_fineness_sand" []).ok = false
    ∧ (post_guard "модуль крупности песка" "Какой-то ответ." []).ok = false
    ∧ startsWithStr (post_guard "модуль крупности песка" "Какой-то ответ." []).answer
        "> Внимание: Нет допустимых источников (ожидались: " = true :=
  ⟨by decide,
   empty_sources_always_flagged.2 "модуль крупности песка" "modulus_fineness_sand"
     "Какой-то ответ." (by decide)⟩

/-- C8 counterexample: for the dust/clay topic an answer containing all three
method markers but neither formula pattern fails validation with an **empty**
`missing` list (the source slices the one-element description list by
`[:_all(answer, must) is False]`, which ignores the formula markers), so the
guard's completeness warning names nothing — the claim's "contains that
marker's description" fails for the formula marker. -/
theorem missing_formula_not_reported :
    (validate_methods_dust_clay
        "Методы: отмучивание, пипеточный, мокрое просеивание.").ok = false
    ∧ reSearch (vmFormula "1")
        "Методы: отмучивание, пипеточный, мокрое просеивание." = false
    ∧ (validate_methods_dust_clay
        "Методы: отмучивание, пипеточный, мокрое просеивание.").missing = []
    ∧ (post_guard "пылевидные и глинистые частицы в щебне"
        "Методы: отмучивание, пипеточный, мокрое просеивание."
        ["ГОСТ 8269.0-97"]).warnings = ["Недостаточная полнота: "] := by
  refine ⟨by decide, by decide, by decide, by decide⟩

/-- C8 amended: on a content failure the guard appends the topic hint exactly
once (the annotated answer is the bannered text followed by one copy of the
hint) and records one completeness warning listing the validator's `missing`
entries; the `missing` list does contain the absent marker's description for
the method, sieve, cement and frost markers — but a missing formula pattern
(dust/clay and fineness-modulus topics) contributes no description. -/
theorem guard_hint_and_missing_descriptions :
    (∀ q t a used, _detect_topic q = some t →
        (_validate t (guardAnswer1 t a used)).ok = false →
        (post_guard q a used).answer
            = guardAnswer1 t a used ++ "\n\n---" ++ hintFor t
        ∧ (post_guard q a used).warnings.getLast?
            = some ("Недостаточная полнота: "
                ++ "; ".intercalate (_validate t (guardAnswer1 t a used)).missing))
    ∧ (∀ a, vmMust.all (fun p => reSearch p a) = false →
        "Методы: отмучивание/пипеточный/мокрое просеивание"
          ∈ (validate_methods_dust_clay a).missing)
    ∧ (∀ a, sievePats.all (fun p => reSearch p a) = false →
        "Сита: 2.5; 1.25; 0.63; 0.315; 0.16" ∈ (validate_modulus_fineness a).missing)
    ∧ (∀ a pr, pr ∈ cementNeed → reSearch pr.2 a = false →
        pr.1 ∈ (validate_cement_sieve_008 a).missing)
    ∧ (∀ a, (validate_frost_F200_agg a).ok = false →
        "Число циклов = 200; Потеря массы ≤ 5%; не ссылаться на ГОСТ 10060 (для заполнителя)"
          ∈ (validate_frost_F200_agg a).missing) := by
  refine ⟨?_, ?_, ?_, ?_, ?_⟩
  · intro q t a used h hv
    simp only [guardAnswer1] at hv
    simp only [post_guard, h, guardAnswer1]
    by_cases hs : (_check_sources t used).ok = true
    · simp only [hs, if_true] at hv ⊢
      simp only [hv, Bool.false_eq_true, if_false]
      simp
    · rw [Bool.not_eq_true] at hs
      simp only [hs, Bool.false_eq_true, if_false] at hv ⊢
      simp only [hv, if_false]
      simp
  · intro a h
    simp only [validate_methods_dust_clay, h, Bool.false_eq_true, if_false]
    simp
  · intro a h
    simp only [validate_modulus_fineness, h, Bool.false_eq_true, if_false]
    simp
  · intro a pr hpr hnp
    simp only [validate_cement_sieve_008]
    exact List.mem_map.mpr ⟨pr, List.mem_filter.mpr ⟨hpr, by simp [hnp]⟩, rfl⟩
  · intro a h
    simp only [validate_frost_F200_agg] at h ⊢
    rw [h]
    simp

/-- C8 witness: the dust/clay query with an empty cited set — the bannered
text fails content validation, the hint is appended once, and the last
warning is the completeness message. -/
theorem guard_hint_and_missing_descriptions_witness :
    _detect_topic "пылевидные и глинистые частицы в щебне" = some "dust_clay_in_coarse_agg"
    ∧ ((post_guard "пылевидные и глинистые частицы в щебне" "Ответ." []).answer
          = guardAnswer1 "dust_clay_in_coarse_agg" "Ответ." [] ++ "\n\n---"
            ++ hintFor "dust_clay_in_coarse_agg"
        ∧ (post_guard "пылевидные и глинистые частицы в щебне" "Ответ." []).warnings.getLast?
          = some ("Недостаточная полнота: "
              ++ "; ".intercalate (_validate "dust_clay_in_coarse_agg"
                  (guardAnswer1 "dust_clay_in_coarse_agg" "Ответ." [])).missing)) :=
  ⟨by decide,
   guard_hint_and_missing_descriptions.1 "пылевидные и глинистые частицы в щебне"
     "dust_clay_in_coarse_agg" "Ответ." [] (by decide) (by decide)⟩

/-- Every chunk returned by `search_chunks` originates from an eligible stored
row and carries `dense_score = 1 − distance`; the dense SQL query is the only
candidate source. -/
theorem mem_search_chunks (db : List StoredRow) (dist : List ℚ → List ℚ → ℚ)
    (svc : String → List ℚ) (query : String) (top_k : Nat) (std_pattern : Option String)
    (c : Chunk) (hc : c ∈ search_chunks db dist svc query top_k std_pattern) :
    ∃ r, r ∈ db ∧ eligible (svc (pyStrip query)).length std_pattern r = true
      ∧ c = rowToChunk dist (svc (pyStrip query)) r := by
  simp only [search_chunks] at hc
  by_cases hq : pyStrip query = ""
  · rw [if_pos hq] at hc
    exact absurd hc (List.not_mem_nil c)
  · rw [if_neg hq] at hc
    obtain ⟨r, hr, hcr⟩ := List.mem_map.mp hc
    have hr2 := List.mem_of_mem_take (List.mem_of_mem_take hr)
    have hr3 := (List.mem_insertionSort _).mp hr2
    obtain ⟨hrdb, helig⟩ := List.mem_filter.mp hr3
    exact ⟨r, hrdb, helig, hcr.symm⟩

/-- C2 amended: search is dense-only.  Every returned passage is one of the
stored rows whose embedding length equals the query embedding's length
(and which passes the optional standard filter), carrying
`dense_score = 1 − distance(row, query)` — there is no lexical channel, no
normalization and no fusion in `search_chunks`. -/
theorem search_dense_only_provenance (db : List StoredRow)
    (dist : List ℚ → List ℚ → ℚ) (svc : String → List ℚ) (query : String)
    (top_k : Nat) (std_pattern : Option String) (c : Chunk)
    (hc : c ∈ search_chunks db dist svc query top_k std_pattern) :
    ∃ r, r ∈ db ∧ eligible (svc (pyStrip query)).length std_pattern r = true
      ∧ c = rowToChunk dist (svc (pyStrip query)) r :=
  mem_search_chunks db dist svc query top_k std_pattern c hc

/-- C2 counterexample: on a three-passage store the code's ranking follows
dense distance alone (ids `[1, 2, 3]`, dense scores `1 − 0`, `1 − 1`,
`1 − 50`), whereas the spec's hybrid fusion of those same dense scores with a
lexical channel preferring passage 2 ranks `[2, 1, 3]` — `search_chunks`
consumes no lexical candidates at all. -/
theorem search_ignores_lexical_fusion :
    (search_chunks cexDb2 cexDist2 (fun _ => [0]) "запрос" 3 none).map (·.id) = [11, 12, 13]
    ∧ (search_chunks cexDb2 cexDist2 (fun _ => [0]) "запрос" 3 none).map (·.dense_score)
        = [some ((1 : ℚ) - 0), some ((1 : ℚ) - 1), some ((1 : ℚ) - 50)]
    ∧ ((1 : ℚ) - 0 = 1 ∧ (1 : ℚ) - 1 = 0 ∧ (1 : ℚ) - 50 = -49)
    ∧ (specHybridSearch [(11, 1), (12, 0), (13, -49)] cexLex2 3).map (·.1) = [12, 11, 13]
    ∧ ([11, 12, 13] : List Nat) ≠ [12, 11, 13] := by
  refine ⟨by decide, rfl, by norm_num, ?_, by decide⟩
  have e1 : specFusionScore [(11, (1 : ℚ)), (12, 0), (13, -49)] cexLex2 11 = 7 / 10 := by
    rw [show specFusionScore [(11, (1 : ℚ)), (12, 0), (13, -49)] cexLex2 11
        = 7 / 10 * ((1 - -49) / (1 - -49)) + 3 / 10 * ((0 - 0) / (100 - 0)) from rfl]
    norm_num
  have e2 : specFusionScore [(11, (1 : ℚ)), (12, 0), (13, -49)] cexLex2 12 = 493 / 500 := by
    rw [show specFusionScore [(11, (1 : ℚ)), (12, 0), (13, -49)] cexLex2 12
        = 7 / 10 * ((0 - -49) / (1 - -49)) + 3 / 10 * ((100 - 0) / (100 - 0)) from rfl]
    norm_num
  have e3 : specFusionScore [(11, (1 : ℚ)), (12, 0), (13, -49)] cexLex2 13 = 0 := by
    rw [show specFusionScore [(11, (1 : ℚ)), (12, 0), (13, -49)] cexLex2 13
        = 7 / 10 * ((-49 - -49) / (1 - -49)) + 3 / 10 * ((0 - 0) / (100 - 0)) from rfl]
    norm_num
  have hids : ((List.map (fun x : Nat × ℚ => x.1) [(11, (1 : ℚ)), (12, 0), (13, -49)]
      ++ List.map (fun x : Nat × ℚ => x.1) cexLex2).eraseDups) = [11, 12, 13] := by decide
  have c1 : specFusionScore [(11, (1 : ℚ)), (12, 0), (13, -49)] cexLex2 13
      ≤ specFusionScore [(11, (1 : ℚ)), (12, 0), (13, -49)] cexLex2 12 := by
    rw [e3, e2]
    norm_num
  have c2 : ¬(specFusionScore [(11, (1 : ℚ)), (12, 0), (13, -49)] cexLex2 12
      ≤ specFusionScore [(11, (1 : ℚ)), (12, 0), (13, -49)] cexLex2 11) := by
    rw [e2, e1]
    norm_num
  have c3 : specFusionScore [(11, (1 : ℚ)), (12, 0), (13, -49)] cexLex2 13
      ≤ specFusionScore [(11, (1 : ℚ)), (12, 0), (13, -49)] cexLex2 11 := by
    rw [e3, e1]
    norm_num
  simp only [specHybridSearch]
  rw [hids]
  simp only [List.insertionSort, List.orderedInsert]
  rw [if_pos c1]
  simp only [List.orderedInsert]
  rw [if_neg c2, if_pos c3]
  rfl

/-- C2 witness. -/
theorem search_dense_only_provenance_witness :
    (rowToChunk (fun _ _ => (0 : ℚ)) [0]
        { id := 7, document_id := 2, chunk_index := 0, text := "w", embedding := some [0] })
      ∈ search_chunks cexDb2w (fun _ _ => (0 : ℚ)) (fun _ => [0]) "q" 1 none
    ∧ ∃ r, r ∈ cexDb2w
        ∧ eligible ((fun (_ : String) => [(0 : ℚ)]) (pyStrip "q")).length none r = true
        ∧ rowToChunk (fun _ _ => (0 : ℚ)) [0]
            { id := 7, document_id := 2, chunk_index := 0, text := "w", embedding := some [0] }
          = rowToChunk (fun _ _ => (0 : ℚ)) ((fun (_ : String) => [(0 : ℚ)]) (pyStrip "q")) r :=
  have hse : search_chunks cexDb2w (fun _ _ => (0 : ℚ)) (fun _ => [0]) "q" 1 none
      = [rowToChunk (fun _ _ => (0 : ℚ)) [0]
          { id := 7, document_id := 2, chunk_index := 0, text := "w", embedding := some [0] }] :=
    rfl
  have hm : (rowToChunk (fun _ _ => (0 : ℚ)) [0]
      { id := 7, document_id := 2, chunk_index := 0, text := "w", embedding := some [0] })
      ∈ search_chunks cexDb2w (fun _ _ => (0 : ℚ)) (fun _ => [0]) "q" 1 none := by
    rw [hse]
    exact List.mem_singleton.mpr rfl
  ⟨hm,
    search_dense_only_provenance cexDb2w (fun _ _ => (0 : ℚ)) (fun _ => [0]) "q" 1 none _ hm⟩

/-- C6 amended: `search_chunks` returns at most `top_k` passages, sorted
non-increasing by dense score; and whenever the distance oracle stays in the
cosine-distance range `[0, 2]`, every returned score `1 − distance` lies in
`[−1, 1]` — not in `[0, 1]` as claimed. -/
theorem search_ranked_by_dense (db : List StoredRow) (dist : List ℚ → List ℚ → ℚ)
    (svc : String → List ℚ) (query : String) (top_k : Nat) (std_pattern : Option String) :
    (search_chunks db dist svc query top_k std_pattern).length ≤ top_k
    ∧ (search_chunks db dist svc query top_k std_pattern).Pairwise
        (fun a b => b.dense_score.getD 0 ≤ a.dense_score.getD 0)
    ∧ ((∀ e₁ e₂, 0 ≤ dist e₁ e₂ ∧ dist e₁ e₂ ≤ 2) →
        ∀ c ∈ search_chunks db dist svc query top_k std_pattern,
          ∀ s, c.dense_score = some s → -1 ≤ s ∧ s ≤ 1) := by
  refine ⟨?_, ?_, ?_⟩
  · simp only [search_chunks]
    by_cases hq : pyStrip query = ""
    · simp [hq]
    · rw [if_neg hq]
      simp only [List.length_map, List.length_take]
      exact le_trans (min_le_left _ _) le_rfl
  · simp only [search_chunks]
    by_cases hq : pyStrip query = ""
    · simp [hq]
    · rw [if_neg hq]
      have hsorted : List.Pairwise
          (fun r s : StoredRow =>
            dist (r.embedding.getD []) (svc (pyStrip query))
              ≤ dist (s.embedding.getD []) (svc (pyStrip query)))
          ((db.filter (eligible (svc (pyStrip query)).length std_pattern)).insertionSort
            (fun r s => dist (r.embedding.getD []) (svc (pyStrip query))
              ≤ dist (s.embedding.getD []) (svc (pyStrip query)))) := by
        haveI : IsTotal StoredRow
            (fun r s => dist (r.embedding.getD []) (svc (pyStrip query))
              ≤ dist (s.embedding.getD []) (svc (pyStrip query))) :=
          ⟨fun a b => le_total _ _⟩
        haveI : IsTrans StoredRow
            (fun r s => dist (r.embedding.getD []) (svc (pyStrip query))
              ≤ dist (s.embedding.getD []) (svc (pyStrip query))) :=
          ⟨fun a b c hab hbc => le_trans hab hbc⟩
        exact List.sorted_insertionSort _ _
      rw [List.pairwise_map]
      refine List.Pairwise.imp ?_
        (List.Pairwise.sublist ((List.take_sublist _ _).trans (List.take_sublist _ _)) hsorted)
      intro a b hab
      simp only [rowToChunk, Option.getD_some]
      linarith
  · intro hbd c hc s hs
    obtain ⟨r, _, _, hcr⟩ := mem_search_chunks db dist svc query top_k std_pattern c hc
    subst hcr
    simp only [rowToChunk, Option.some.injEq] at hs
    obtain ⟨h0, h2⟩ := hbd (r.embedding.getD []) (svc (pyStrip query))
    constructor <;> linarith [hs]

/-- C6 counterexample: with a cosine distance of `8/5` (attained e.g. by the
vectors `[1, 0]` and `[−3, 4]`, similarity `−3/5`), the returned passage's
score `1 − 8/5` is negative — dense scores live in `[−1, 1]`, not `[0, 1]`,
and no fusion score exists on the returned `Chunk`s at all. -/
theorem search_score_not_in_unit_interval :
    (search_chunks cexDb6c (fun _ _ => (8 : ℚ)/5) (fun _ => [0]) "x" 1 none).map
        (·.dense_score) = [some ((1 : ℚ) - 8/5)]
    ∧ (1 : ℚ) - 8/5 < 0 := by
  refine ⟨rfl, by norm_num⟩

/-- C6 witness: a store with one passage at distance `1/2` — at most one
passage is returned, and (the distance oracle staying within the cosine range
`[0, 2]`) its score `1 − 1/2` lies in `[−1, 1]`. -/
theorem search_ranked_by_dense_witness :
    (search_chunks cexDb6w (fun _ _ => (1 : ℚ)/2) (fun _ => [0]) "w" 1 none).length ≤ 1
    ∧ (-1 ≤ (1 : ℚ) - 1/2 ∧ (1 : ℚ) - 1/2 ≤ 1) := by
  have hse : search_chunks cexDb6w (fun _ _ => (1 : ℚ)/2) (fun _ => [0]) "w" 1 none
      = [rowToChunk (fun _ _ => (1 : ℚ)/2) [0]
          { id := 4, document_id := 1, chunk_index := 0, text := "v", embedding := some [0] }] :=
    rfl
  have hm : (rowToChunk (fun _ _ => (1 : ℚ)/2) [0]
      { id := 4, document_id := 1, chunk_index := 0, text := "v", embedding := some [0] })
      ∈ search_chunks cexDb6w (fun _ _ => (1 : ℚ)/2) (fun _ => [0]) "w" 1 none := by
    rw [hse]
    exact List.mem_singleton.mpr rfl
  exact ⟨(search_ranked_by_dense cexDb6w (fun _ _ => (1 : ℚ)/2) (fun _ => [0]) "w" 1 none).1,
    (search_ranked_by_dense cexDb6w (fun _ _ => (1 : ℚ)/2) (fun _ => [0]) "w" 1 none).2.2
      (fun _ _ => ⟨by norm_num, by norm_num⟩) _ hm ((1 : ℚ) - 1/2) rfl⟩
